import Mathlib

/-!
Verification development for the business-administration panel
`app_producao.py` (a single-file Flask application).

The domain operations and route handlers of `src/app_producao.py` are
shallowly embedded as pure Lean functions over an explicit store state
`DB`.  The Flask request context is passed explicitly: `authed` stands
for `current_user.is_authenticated` (what the `login_required`
decorator inspects), `Form` stands for `request.form`, and a processed
image upload is an `Option String` (the saved file name, `none` when no
usable file was uploaded).

Python `int(...)` / `float(...)` of form fields are modelled as exact
parses to `Int` / `Rat` over plain decimal literals; binary floating
point rounding, exponent notation, `inf` and `nan` are not modelled (no
claim depends on them).  Flash messages that interpolate a Python
exception object are abstracted to a fixed message.

The entity-store module `models_supabase.py` is imported by the source
but is not under `src/`; its CRUD operations are modelled from the
specification (sections 3, 4.1 and 6 of the spec), each with a doc
comment saying so.
-/

namespace App

/-- Numeric value of a list of decimal digit characters, most significant first. -/
def natOfDigits (cs : List Char) : Nat :=
  cs.foldl (fun n c => n * 10 + (c.toNat - 48)) 0

/-- Surrounding whitespace stripped from a character list (Python's
numeric constructors ignore surrounding whitespace). -/
def trimWs (cs : List Char) : List Char :=
  ((cs.dropWhile (·.isWhitespace)).reverse.dropWhile (·.isWhitespace)).reverse

/-- Python `int(s)` on a decimal string: optional surrounding whitespace,
optional sign, then digits.  `none` models a raised `ValueError`. -/
def pyInt? (s : String) : Option Int :=
  match trimWs s.toList with
  | [] => none
  | '-' :: ds =>
      if ds ≠ [] ∧ ds.all (·.isDigit) then some (-(natOfDigits ds : Int)) else none
  | '+' :: ds =>
      if ds ≠ [] ∧ ds.all (·.isDigit) then some ((natOfDigits ds : Int)) else none
  | ds =>
      if ds.all (·.isDigit) then some ((natOfDigits ds : Int)) else none

/-- Unsigned part of a Python `float` decimal literal: digits with an
optional single decimal point; at least one digit overall. -/
def pyFloatUnsigned? (cs : List Char) : Option Rat :=
  let intPart := cs.takeWhile (· ≠ '.')
  match cs.dropWhile (· ≠ '.') with
  | [] =>
      if intPart ≠ [] ∧ intPart.all (·.isDigit) then some ((natOfDigits intPart : Rat))
      else none
  | _ :: frac =>
      if frac.contains '.' then none
      else if (intPart ≠ [] ∨ frac ≠ []) ∧ intPart.all (·.isDigit) ∧ frac.all (·.isDigit) then
        some ((natOfDigits intPart : Rat) + (natOfDigits frac : Rat) / (10 : Rat) ^ frac.length)
      else none

/-- Python `float(s)` on a plain decimal literal (optional sign and
decimal point); `none` models a raised `ValueError`. -/
def pyFloat? (s : String) : Option Rat :=
  match trimWs s.toList with
  | '-' :: cs => (pyFloatUnsigned? cs).map (fun q => -q)
  | '+' :: cs => pyFloatUnsigned? cs
  | cs => pyFloatUnsigned? cs

/-- `request.form`, as a partial map from field name to submitted string. -/
abbrev Form := String → Option String

/-- `int(form.get(k, d))`: the default is used when the field is absent;
a present but unparseable value raises (`none`). -/
def pyIntField (v : Option String) (d : Int) : Option Int :=
  match v with
  | none => some d
  | some s => pyInt? s

/-- `float(form.get(k, d))`: the default is used when the field is absent;
a present but unparseable value raises (`none`). -/
def pyFloatField (v : Option String) (d : Rat) : Option Rat :=
  match v with
  | none => some d
  | some s => pyFloat? s

/-- Python falsiness of `form.get(k)`: absent or the empty string. -/
def isBlank (v : Option String) : Bool :=
  match v with
  | none => true
  | some s => s == ""

/-- Customer record (`Cliente`), fields as submitted by the client forms. -/
structure Cliente where
  id : String
  nome : String
  email : String
  telefone : String
  cpf_cnpj : String
  endereco : String
  cidade : String
  estado : String
  cep : String
deriving DecidableEq

/-- Category record (`Categoria`). -/
structure Categoria where
  id : String
  nome : String
  descricao : String
  cor : String
  icone : String
deriving DecidableEq

/-- Product record (`Produto`).  `preco` is a Python float modelled as an
exact rational; `imagem` is the optional stored upload handle. -/
structure Produto where
  id : String
  nome : String
  descricao : String
  preco : Rat
  quantidade : Int
  categoria_id : String
  codigo_barras : String
  imagem : Option String
deriving DecidableEq

/-- Sale record (`Venda`) as created by `nova_venda`. -/
structure Venda where
  id : String
  cliente_id : String
  data_venda : String
  total : Rat
  status : String
deriving DecidableEq

/-- The entity store state: one list per entity plus a counter used to
assign fresh store ids (the spec says ids are opaque and store-assigned). -/
structure DB where
  clientes : List Cliente
  categorias : List Categoria
  produtos : List Produto
  vendas : List Venda
  nextId : Nat
deriving DecidableEq

/-- Store-level errors of the spec's taxonomy that the modelled store
operations can report (section 7 of the spec). -/
inductive StoreErr where
  | validation
  | conflict
  | notFound
deriving DecidableEq

/-- Field payload of `Cliente.create` / `Cliente.update` (all eight form fields). -/
structure ClienteData where
  nome : String
  email : String
  telefone : String
  cpf_cnpj : String
  endereco : String
  cidade : String
  estado : String
  cep : String
deriving DecidableEq

/-- Field payload of `Categoria.create` / `Categoria.update`. -/
structure CategoriaData where
  nome : String
  descricao : String
  cor : String
  icone : String
deriving DecidableEq

/-- Field payload of `Produto.create`. -/
structure ProdutoData where
  nome : String
  descricao : String
  preco : Rat
  quantidade : Int
  categoria_id : String
  codigo_barras : String
  imagem : Option String
deriving DecidableEq

/-- Field payload of `Venda.create`. -/
structure VendaData where
  cliente_id : String
  data_venda : String
  total : Rat
  status : String
deriving DecidableEq

/-- Partial patch for `Produto.update`: `none` means the field was not
part of the update's keyword arguments. -/
structure ProdutoPatch where
  nome : Option String := none
  descricao : Option String := none
  preco : Option Rat := none
  quantidade : Option Int := none
  categoria_id : Option String := none
  codigo_barras : Option String := none
  imagem : Option (Option String) := none
deriving DecidableEq

/-- Applying a partial patch: fields not present keep the stored value. -/
def ProdutoPatch.apply (pat : ProdutoPatch) (p : Produto) : Produto :=
  { p with
    nome := pat.nome.getD p.nome
    descricao := pat.descricao.getD p.descricao
    preco := pat.preco.getD p.preco
    quantidade := pat.quantidade.getD p.quantidade
    categoria_id := pat.categoria_id.getD p.categoria_id
    codigo_barras := pat.codigo_barras.getD p.codigo_barras
    imagem := pat.imagem.getD p.imagem }

/-- Modelled from the spec: `Cliente.get_by_id` of `models_supabase.py`
(not under `src/`); `getById(id) -> entity | NotFound` (spec 4.1). -/
def Cliente.get_by_id (db : DB) (id : String) : Option Cliente :=
  db.clientes.find? (fun c => c.id == id)

/-- Modelled from the spec: `Categoria.get_by_id` of `models_supabase.py`
(not under `src/`); `getById(id) -> entity | NotFound` (spec 4.1). -/
def Categoria.get_by_id (db : DB) (id : String) : Option Categoria :=
  db.categorias.find? (fun c => c.id == id)

/-- Modelled from the spec: `Produto.get_by_id` of `models_supabase.py`
(not under `src/`); `getById(id) -> entity | NotFound` (spec 4.1). -/
def Produto.get_by_id (db : DB) (id : String) : Option Produto :=
  db.produtos.find? (fun p => p.id == id)

/-- Modelled from the spec: `Cliente.create` of `models_supabase.py`
(not under `src/`).  `create` assigns a fresh opaque id and fails with
`ValidationError` on malformed required fields — the spec's example for
a customer is a well-formed email (spec 4.1); well-formedness is
modelled as containing an at sign.  Returns the new state, `none` for
a falsy (failed) result. -/
def Cliente.create (db : DB) (d : ClienteData) : Option DB :=
  if d.email.contains '@' then
    some { db with
      clientes := db.clientes ++
        [⟨toString db.nextId, d.nome, d.email, d.telefone, d.cpf_cnpj,
          d.endereco, d.cidade, d.estado, d.cep⟩]
      nextId := db.nextId + 1 }
  else none

/-- Modelled from the spec: `Cliente.update` of `models_supabase.py`
(not under `src/`).  The route always submits every field, so the
payload is total; `update` replaces the entity's fields and returns the
new state, or `none` when the id has no matching entity (spec 4.1). -/
def Cliente.update (db : DB) (id : String) (d : ClienteData) : Option DB :=
  if db.clientes.any (fun c => c.id == id) then
    some { db with
      clientes := db.clientes.map (fun c =>
        if c.id == id then
          ⟨c.id, d.nome, d.email, d.telefone, d.cpf_cnpj, d.endereco, d.cidade, d.estado, d.cep⟩
        else c) }
  else none

/-- Modelled from the spec: `Cliente.delete` of `models_supabase.py`
(not under `src/`).  Forbid-by-default: deleting a customer referenced
by a sale is a `ConflictError`; deleting a missing id is `NotFound`
(spec 4.1). -/
def Cliente.delete (db : DB) (id : String) : Except StoreErr DB :=
  if db.vendas.any (fun v => v.cliente_id == id) then .error .conflict
  else if db.clientes.any (fun c => c.id == id) then
    .ok { db with clientes := db.clientes.filter (fun c => ¬ c.id == id) }
  else .error .notFound

/-- Modelled from the spec: `Categoria.create` of `models_supabase.py`
(not under `src/`); assigns a fresh opaque id (spec 4.1). -/
def Categoria.create (db : DB) (d : CategoriaData) : Option DB :=
  some { db with
    categorias := db.categorias ++ [⟨toString db.nextId, d.nome, d.descricao, d.cor, d.icone⟩]
    nextId := db.nextId + 1 }

/-- Modelled from the spec: `Categoria.update` of `models_supabase.py`
(not under `src/`); replaces the submitted fields, `none` when the id
has no matching entity (spec 4.1). -/
def Categoria.update (db : DB) (id : String) (d : CategoriaData) : Option DB :=
  if db.categorias.any (fun c => c.id == id) then
    some { db with
      categorias := db.categorias.map (fun c =>
        if c.id == id then ⟨c.id, d.nome, d.descricao, d.cor, d.icone⟩ else c) }
  else none

/-- Modelled from the spec: `Categoria.delete` of `models_supabase.py`
(not under `src/`).  Forbid-by-default with no override: deleting a
category referenced by an existing product is a `ConflictError` and
changes nothing (spec 4.1 and section 8's deletion-conflict property). -/
def Categoria.delete (db : DB) (id : String) : Except StoreErr DB :=
  if db.produtos.any (fun p => p.categoria_id == id) then .error .conflict
  else if db.categorias.any (fun c => c.id == id) then
    .ok { db with categorias := db.categorias.filter (fun c => ¬ c.id == id) }
  else .error .notFound

/-- Modelled from the spec: `Produto.create` of `models_supabase.py`
(not under `src/`).  `create` fails with `ValidationError` on malformed
fields — for a product the spec requires a non-negative price (spec
4.1) and a non-negative quantity (spec 3: negative quantity is an
invalid state; spec 8: all valid creations have `quantity >= 0`). -/
def Produto.create (db : DB) (d : ProdutoData) : Option DB :=
  if 0 ≤ d.preco ∧ 0 ≤ d.quantidade then
    some { db with
      produtos := db.produtos ++
        [⟨toString db.nextId, d.nome, d.descricao, d.preco, d.quantidade,
          d.categoria_id, d.codigo_barras, d.imagem⟩]
      nextId := db.nextId + 1 }
  else none

/-- Modelled from the spec: `Produto.update` of `models_supabase.py`
(not under `src/`).  `update` applies a partial patch; fields not
present in the patch are left untouched; no further validation is
specified for `update` (spec 4.1).  Returns `none` when the id has no
matching entity. -/
def Produto.update (db : DB) (id : String) (pat : ProdutoPatch) : Option DB :=
  if db.produtos.any (fun p => p.id == id) then
    some { db with
      produtos := db.produtos.map (fun p => if p.id == id then pat.apply p else p) }
  else none

/-- Modelled from the spec: `Produto.delete` of `models_supabase.py`
(not under `src/`); removes the product, `none` when the id is missing. -/
def Produto.delete (db : DB) (id : String) : Option DB :=
  if db.produtos.any (fun p => p.id == id) then
    some { db with produtos := db.produtos.filter (fun p => ¬ p.id == id) }
  else none

/-- The sale status values of the spec's enum (pending, completed,
cancelled), realized by the Portuguese literals the source uses
(`status := 'concluida'` at `src/app_producao.py:1165`). -/
def vendaStatusValues : List String := ["pendente", "concluida", "cancelada"]

/-- Modelled from the spec: `Venda.create` of `models_supabase.py`
(not under `src/`).  `create` assigns a fresh opaque id and fails with
`ValidationError` on malformed fields — the sale data model requires a
non-negative total and a status from the enum (spec 3, spec 4.1). -/
def Venda.create (db : DB) (d : VendaData) : Option DB :=
  if 0 ≤ d.total ∧ d.status ∈ vendaStatusValues then
    some { db with
      vendas := db.vendas ++ [⟨toString db.nextId, d.cliente_id, d.data_venda, d.total, d.status⟩]
      nextId := db.nextId + 1 }
  else none

/-- HTML item of the inventory screen (`estoque`, `src/app_producao.py:946`):
a product converted to the dictionary the table renders.  The source reads
`produto.get('categoria', 'Sem categoria')`; the product dictionary carries
`categoria_id`, not `categoria`, so the default is always used. -/
structure EstoqueItem where
  id : String
  nome : String
  descricao : String
  quantidade : Int
  preco : Rat
  categoria : String
  imagem : Option String
  codigo_barras : String
  status : String
deriving DecidableEq

/-- Conversion of a product to an inventory row, including the derived
stock status (`src/app_producao.py:946`–`956`). -/
def estoque_item (p : Produto) : EstoqueItem :=
  { id := p.id
    nome := p.nome
    descricao := p.descricao
    quantidade := p.quantidade
    preco := p.preco
    categoria := "Sem categoria"
    imagem := p.imagem
    codigo_barras := p.codigo_barras
    status := if p.quantidade > 0 then "Em estoque" else "Sem estoque" }

/-- HTTP responses the modelled routes produce.  Flashed messages are the
`(message, category)` pairs emitted with the response; JSON bodies that
only matter as flat string objects are `List (String × String)`. -/
inductive Resp where
  | redirect (target : String) (flashes : List (String × String))
  | html (page : String) (flashes : List (String × String))
  | estoquePage (items : List EstoqueItem)
  | jsonVendas (vendas : List Venda)
  | jsonOk (payload : String)
  | jsonObj (body : List (String × String))
  | jsonErr (status : Nat) (body : List (String × String))
  | plain404 (body : String)
  | fileOk (content : String)
deriving DecidableEq

/-- The response Flask-Login produces for an unauthenticated request to a
`login_required` route: redirect to the login view with the configured
message (`src/app_producao.py:39`–`40`). -/
def loginRedirect : Resp :=
  .redirect "login" [("Por favor, faça login para acessar esta página.", "message")]

/-- The user object returned for the hardcoded admin credentials
(`MockUser`, `src/app_producao.py:148`). -/
structure MockUser where
  id : String
  username : String
  nome : String
deriving DecidableEq

/-- `authenticate_user` (`src/app_producao.py:160`–`175`): the single
hardcoded credential pair succeeds; every other pair yields `None`. -/
def authenticate_user (username password : String) : Option MockUser :=
  if username = "admin" ∧ password = "admin123" then
    some ⟨"admin", "admin", "Administrador"⟩
  else none

/-- Outcome of a login attempt as observed by the caller. -/
inductive LoginResult where
  | success (user : MockUser)
  | failure (message : String)
deriving DecidableEq

/-- POST branch of the `login` route (`src/app_producao.py:487`–`507`):
on success the user is logged in and redirected; on any mismatch the
same fixed message is flashed. -/
def login_post (username password : String) : LoginResult :=
  match authenticate_user username password with
  | some u => .success u
  | none => .failure "Usuário ou senha incorretos!"

/-- `index` (`src/app_producao.py:200`–`209`): manual authentication
check, redirecting to login; the authenticated branch renders the
dashboard. -/
def index (authed : Bool) (db : DB) : DB × Resp :=
  if authed then (db, .html "dashboard" []) else (db, .redirect "login" [])

/-- `clientes` list screen (`src/app_producao.py:577`), `login_required`. -/
def clientes (authed : Bool) (db : DB) : DB × Resp :=
  if authed then (db, .html "clientes" []) else (db, loginRedirect)

/-- `categorias` list screen (`src/app_producao.py:687`), `login_required`. -/
def categorias (authed : Bool) (db : DB) : DB × Resp :=
  if authed then (db, .html "categorias" []) else (db, loginRedirect)

/-- `produtos` list screen (`src/app_producao.py:781`), `login_required`. -/
def produtos (authed : Bool) (db : DB) : DB × Resp :=
  if authed then (db, .html "produtos" []) else (db, loginRedirect)

/-- `vendas` list screen (`src/app_producao.py:1143`), `login_required`. -/
def vendas (authed : Bool) (db : DB) : DB × Resp :=
  if authed then (db, .html "vendas" []) else (db, loginRedirect)

/-- `estoque` inventory screen (`src/app_producao.py:931`–`1076`),
`login_required`; renders one row per product via `estoque_item`. -/
def estoque (authed : Bool) (db : DB) : DB × Resp :=
  if authed then (db, .estoquePage (db.produtos.map estoque_item)) else (db, loginRedirect)

/-- POST branch of `novo_cliente` (`src/app_producao.py:589`–`623`),
`login_required`.  All eight fields are read with bracket access, so a
missing field raises `KeyError`, which the handler catches (flash and
re-render the form, no store write). -/
def novo_cliente (authed : Bool) (form : Form) (db : DB) : DB × Resp :=
  if authed then
    match form "nome", form "email", form "telefone", form "cpf_cnpj",
          form "endereco", form "cidade", form "estado", form "cep" with
    | some nome, some email, some telefone, some cpf, some endereco,
      some cidade, some estado, some cep =>
        match Cliente.create db ⟨nome, email, telefone, cpf, endereco, cidade, estado, cep⟩ with
        | some db2 => (db2, .redirect "clientes" [("Cliente criado com sucesso!", "success")])
        | none => (db, .html "cliente_form" [("Erro ao criar cliente!", "error")])
    | _, _, _, _, _, _, _, _ =>
        (db, .html "cliente_form" [("Erro ao criar cliente", "error")])
  else (db, loginRedirect)

/-- POST branch of `editar_cliente` (`src/app_producao.py:625`–`666`),
`login_required`.  A missing form field raises `KeyError` out to the
outer handler (flash and redirect, no store write). -/
def editar_cliente (authed : Bool) (id : String) (form : Form) (db : DB) : DB × Resp :=
  if authed then
    match Cliente.get_by_id db id with
    | none => (db, .redirect "clientes" [("Cliente não encontrado!", "error")])
    | some _ =>
        match form "nome", form "email", form "telefone", form "cpf_cnpj",
              form "endereco", form "cidade", form "estado", form "cep" with
        | some nome, some email, some telefone, some cpf, some endereco,
          some cidade, some estado, some cep =>
            match Cliente.update db id
                ⟨nome, email, telefone, cpf, endereco, cidade, estado, cep⟩ with
            | some db2 =>
                (db2, .redirect "clientes" [("Cliente atualizado com sucesso!", "success")])
            | none => (db, .html "cliente_form" [("Erro ao atualizar cliente!", "error")])
        | _, _, _, _, _, _, _, _ =>
            (db, .redirect "clientes" [("Erro ao editar cliente", "error")])
  else (db, loginRedirect)

/-- `excluir_cliente` (`src/app_producao.py:668`–`684`), `login_required`. -/
def excluir_cliente (authed : Bool) (id : String) (db : DB) : DB × Resp :=
  if authed then
    match Cliente.delete db id with
    | .ok db2 => (db2, .redirect "clientes" [("Cliente excluído com sucesso!", "success")])
    | .error _ => (db, .redirect "clientes" [("Erro ao excluir cliente!", "error")])
  else (db, loginRedirect)

/-- POST branch of `nova_categoria` (`src/app_producao.py:699`–`721`),
`login_required`. -/
def nova_categoria (authed : Bool) (form : Form) (db : DB) : DB × Resp :=
  if authed then
    match form "nome", form "descricao", form "cor", form "icone" with
    | some nome, some descricao, some cor, some icone =>
        match Categoria.create db ⟨nome, descricao, cor, icone⟩ with
        | some db2 => (db2, .redirect "categorias" [("Categoria criada com sucesso!", "success")])
        | none => (db, .html "categoria_form" [("Erro ao criar categoria!", "error")])
    | _, _, _, _ => (db, .html "categoria_form" [("Erro ao criar categoria", "error")])
  else (db, loginRedirect)

/-- POST branch of `editar_categoria` (`src/app_producao.py:723`–`760`),
`login_required`. -/
def editar_categoria (authed : Bool) (id : String) (form : Form) (db : DB) : DB × Resp :=
  if authed then
    match Categoria.get_by_id db id with
    | none => (db, .redirect "categorias" [("Categoria não encontrada!", "error")])
    | some _ =>
        match form "nome", form "descricao", form "cor", form "icone" with
        | some nome, some descricao, some cor, some icone =>
            match Categoria.update db id ⟨nome, descricao, cor, icone⟩ with
            | some db2 =>
                (db2, .redirect "categorias" [("Categoria atualizada com sucesso!", "success")])
            | none => (db, .html "categoria_form" [("Erro ao atualizar categoria!", "error")])
        | _, _, _, _ => (db, .redirect "categorias" [("Erro ao editar categoria", "error")])
  else (db, loginRedirect)

/-- `excluir_categoria` (`src/app_producao.py:762`–`778`),
`login_required`: delegates to the store delete; a falsy result or a
raised store error both flash an error, leaving the state unchanged. -/
def excluir_categoria (authed : Bool) (id : String) (db : DB) : DB × Resp :=
  if authed then
    match Categoria.delete db id with
    | .ok db2 => (db2, .redirect "categorias" [("Categoria excluída com sucesso!", "success")])
    | .error _ => (db, .redirect "categorias" [("Erro ao excluir categoria!", "error")])
  else (db, loginRedirect)

/-- POST branch of `novo_produto` (`src/app_producao.py:794`–`824`),
`login_required`.  `newImage` is the saved upload file name (`none`
when no usable file was posted).  `quantidade` uses
`int(request.form.get('quantidade', 0))`; the other fields use bracket
access, and any `KeyError`/`ValueError` is caught (flash, re-render,
no store write). -/
def novo_produto (authed : Bool) (form : Form) (newImage : Option String) (db : DB) :
    DB × Resp :=
  if authed then
    match form "nome", form "descricao", form "categoria_id", form "codigo_barras" with
    | some nome, some descricao, some categoria_id, some codigo =>
        match (form "preco").bind pyFloat? with
        | some preco =>
            match pyIntField (form "quantidade") 0 with
            | some quantidade =>
                match Produto.create db
                    ⟨nome, descricao, preco, quantidade, categoria_id, codigo, newImage⟩ with
                | some db2 =>
                    (db2, .redirect "produtos" [("Produto criado com sucesso!", "success")])
                | none => (db, .html "produto_form" [("Erro ao criar produto!", "error")])
            | none => (db, .html "produto_form" [("Erro ao criar produto", "error")])
        | none => (db, .html "produto_form" [("Erro ao criar produto", "error")])
    | _, _, _, _ => (db, .html "produto_form" [("Erro ao criar produto", "error")])
  else (db, loginRedirect)

/-- The `imagem_filename` computation of `editar_produto`
(`src/app_producao.py:856`–`863`): the stored image is kept unless a new
upload was saved successfully. -/
def keptImage (newImage : Option String) (current : Option String) : Option String :=
  match newImage with
  | some f => some f
  | none => current

/-- POST branch of `editar_produto` (`src/app_producao.py:833`–`910`),
`login_required`.  The current image is kept unless a new upload
succeeded (`keptImage`); `nome` and `categoria_id` must be non-blank;
the omitted optional fields get defaults (`''`, `0`) before the full
field set is passed to `Produto.update`. -/
def editar_produto (authed : Bool) (id : String) (form : Form) (newImage : Option String)
    (db : DB) : DB × Resp :=
  if authed then
    match Produto.get_by_id db id with
    | none => (db, .redirect "produtos" [("Produto não encontrado!", "error")])
    | some produto =>
        if isBlank (form "nome") then
          (db, .html "produto_form"
            [("Nome do produto é obrigatório!", "error"), ("Erro ao processar dados", "error")])
        else if isBlank (form "categoria_id") then
          (db, .html "produto_form"
            [("Categoria é obrigatória!", "error"), ("Erro ao processar dados", "error")])
        else
          match pyFloatField (form "preco") 0 with
          | some preco =>
              match pyIntField (form "quantidade") 0 with
              | some quantidade =>
                  match Produto.update db id
                      { nome := some ((form "nome").getD "")
                        descricao := some ((form "descricao").getD "")
                        preco := some preco
                        quantidade := some quantidade
                        categoria_id := some ((form "categoria_id").getD "")
                        codigo_barras := some ((form "codigo_barras").getD "")
                        imagem := some (keptImage newImage produto.imagem) } with
                  | some db2 =>
                      (db2, .redirect "produtos" [("Produto atualizado com sucesso!", "success")])
                  | none =>
                      (db, .html "produto_form"
                        [("Erro ao atualizar produto! Verifique os dados e tente novamente.",
                          "error")])
              | none => (db, .html "produto_form" [("Erro ao processar dados", "error")])
          | none => (db, .html "produto_form" [("Erro ao processar dados", "error")])
  else (db, loginRedirect)

/-- `excluir_produto` (`src/app_producao.py:912`–`928`), `login_required`. -/
def excluir_produto (authed : Bool) (id : String) (db : DB) : DB × Resp :=
  if authed then
    match Produto.delete db id with
    | some db2 => (db2, .redirect "produtos" [("Produto excluído com sucesso!", "success")])
    | none => (db, .redirect "produtos" [("Erro ao excluir produto!", "error")])
  else (db, loginRedirect)

/-- `atualizar_estoque` (`src/app_producao.py:1108`–`1140`),
`login_required`: parses `int(request.form.get('quantidade', 0))`, looks
the product up, and passes the parsed quantity straight to
`Produto.update` — there is no sign check.  A parse failure is caught
(flash and redirect, no store write). -/
def atualizar_estoque (authed : Bool) (id : String) (form : Form) (db : DB) : DB × Resp :=
  if authed then
    match pyIntField (form "quantidade") 0 with
    | none => (db, .redirect "estoque" [("Erro ao atualizar estoque", "error")])
    | some quantidade =>
        match Produto.get_by_id db id with
        | none => (db, .redirect "estoque" [("Produto não encontrado!", "error")])
        | some _ =>
            match Produto.update db id { quantidade := some quantidade } with
            | some db2 =>
                (db2, .redirect "estoque"
                  [("Estoque atualizado com sucesso! Nova quantidade: " ++ toString quantidade,
                    "success")])
            | none => (db, .redirect "estoque" [("Erro ao atualizar estoque!", "error")])
  else (db, loginRedirect)

/-- POST branch of `nova_venda` (`src/app_producao.py:1155`–`1175`),
`login_required`.  `now` is `datetime.now().isoformat()`; the status is
always the literal `'concluida'`; a missing or unparseable field is
caught (flash, re-render, no store write). -/
def nova_venda (authed : Bool) (form : Form) (now : String) (db : DB) : DB × Resp :=
  if authed then
    match form "cliente_id" with
    | some cliente_id =>
        match (form "total").bind pyFloat? with
        | some total =>
            match Venda.create db ⟨cliente_id, now, total, "concluida"⟩ with
            | some db2 => (db2, .redirect "vendas" [("Venda criada com sucesso!", "success")])
            | none => (db, .html "venda_form" [("Erro ao criar venda!", "error")])
        | none => (db, .html "venda_form" [("Erro ao criar venda", "error")])
    | none => (db, .html "venda_form" [("Erro ao criar venda", "error")])
  else (db, loginRedirect)

/-- The upload folder as a partial map from stored file name to file
content (the blob-store collaborator of spec section 6). -/
abbrev Uploads := String → Option String

/-- `api_relatorio_vendas` (`src/app_producao.py:1192`–`1201`),
`login_required`.  `fetch` is the outcome of the remote `Venda.get_all()`
call (`Except.error` models a raised exception): success is serialized
as JSON; a failure is recovered into a 500 response with body
`erro ↦ message`. -/
def api_relatorio_vendas (authed : Bool) (fetch : Except String (List Venda)) : Resp :=
  if authed then
    match fetch with
    | .ok vs => .jsonVendas vs
    | .error e => .jsonErr 500 [("erro", e)]
  else loginRedirect

/-- `api_relatorio_estoque` (`src/app_producao.py:1203`–`1212`),
`login_required`; `fetch` is the outcome of `Estoque.get_all()`, its
success payload kept abstract as the serialized JSON string. -/
def api_relatorio_estoque (authed : Bool) (fetch : Except String String) : Resp :=
  if authed then
    match fetch with
    | .ok payload => .jsonOk payload
    | .error e => .jsonErr 500 [("erro", e)]
  else loginRedirect

/-- `sync_status_route` (`src/app_producao.py:1257`–`1266`),
`login_required`; `st` is the outcome of `get_sync_status()`
(`sync_supabase.py`, not under `src/`). -/
def sync_status_route (authed : Bool) (st : Except String (List (String × String))) : Resp :=
  if authed then
    match st with
    | .ok body => .jsonObj body
    | .error e => .jsonErr 500 [("erro", e)]
  else loginRedirect

/-- `api_status` (`src/app_producao.py:1340`–`1359`), no login gate.
`fail` models an exception raised inside the `try` block; the recovery
branch returns 500 with the keys `status`, `error` and `timestamp` —
not the `erro` key of the other API endpoints. -/
def api_status (now : String) (fail : Option String) (supabaseOk : Bool) : Resp :=
  match fail with
  | none =>
      .jsonObj
        [("status", "online"), ("app", "Sistema Empresarial"), ("version", "1.0.0"),
         ("environment", "production"), ("timestamp", now),
         ("supabase", if supabaseOk then "available" else "unavailable"),
         ("flask_login", "configured"), ("gunicorn", "ready")]
  | some e => .jsonErr 500 [("status", "error"), ("error", e), ("timestamp", now)]

/-- `uploaded_file` (`src/app_producao.py:1361`–`1370`): the upload
file-serving route.  It carries no `login_required` decorator and its
body never reads the session, so the session flag is an unused
parameter; a missing file (a raised `NotFound`) is recovered into a
plain-text 404. -/
def uploaded_file (authed : Bool) (filename : String) (uploads : Uploads) : Resp :=
  match uploads filename with
  | some content => .fileOk content
  | none => .plain404 "Arquivo não encontrado"

/-- The product-quantity invariant of the spec (section 3): every stored
quantity is non-negative. -/
def quantidadesOk (db : DB) : Prop :=
  ∀ p ∈ db.produtos, 0 ≤ p.quantidade

instance (db : DB) : Decidable (quantidadesOk db) :=
  inferInstanceAs (Decidable (∀ p ∈ db.produtos, 0 ≤ p.quantidade))

/-- Boolean form of the product-quantity invariant, for concrete checks. -/
def quantidadesOkB (db : DB) : Bool :=
  db.produtos.all (fun p => decide (0 ≤ p.quantidade))

/-- The sale data-model invariant of the spec (section 3): non-negative
total and a status from the enum. -/
def vendaOk (v : Venda) : Prop :=
  0 ≤ v.total ∧ v.status ∈ vendaStatusValues

instance (v : Venda) : Decidable (vendaOk v) :=
  inferInstanceAs (Decidable (0 ≤ v.total ∧ v.status ∈ vendaStatusValues))

/-- The spec's words for the JSON error body of API-style endpoints:
an object of shape `erro ↦ string` (spec section 6).  Stated as a
boolean test, for comparison against what the handlers return. -/
def erroBodyShapeB (body : List (String × String)) : Bool :=
  match body with
  | [(k, _)] => k == "erro"
  | _ => false

/-- A form carrying only a `quantidade` field. -/
def formQ (v : String) : Form :=
  fun k => if k == "quantidade" then some v else none

/-- A form carrying only `nome` and `categoria_id`, the two fields
`editar_produto` requires. -/
def formNomeCat (nome cat : String) : Form :=
  fun k => if k == "nome" then some nome else if k == "categoria_id" then some cat else none

/-- A form carrying only `cliente_id` and `total`, the two fields
`nova_venda` reads. -/
def formVenda (cliente total : String) : Form :=
  fun k => if k == "cliente_id" then some cliente else if k == "total" then some total else none

/-- The empty form. -/
def formEmpty : Form := fun _ => none

/-- A concrete product used by the concrete checks. -/
def exProduto : Produto :=
  ⟨"1", "Caneta", "azul", 5, 5, "c1", "789", some "img.png"⟩

/-- A concrete store holding `exProduto`. -/
def exDB : DB := ⟨[], [], [exProduto], [], 2⟩

/-- A concrete store holding one product with quantity zero. -/
def exDB0 : DB := ⟨[], [], [⟨"1", "Caderno", "", 3, 0, "c1", "", none⟩], [], 2⟩

/-- A concrete store with no sales and no products. -/
def exDBEmpty : DB := ⟨[], [], [], [], 0⟩

/-- A concrete store with a category referenced by a product. -/
def exDBCat : DB :=
  ⟨[], [⟨"c1", "Papelaria", "", "azul", "pen"⟩],
   [⟨"p1", "Caneta", "", 5, 3, "c1", "", none⟩], [], 5⟩

/-- An upload folder holding a single file. -/
def uploadsOne : Uploads :=
  fun k => if k == "a.png" then some "conteudo" else none

/-- An empty upload folder. -/
def uploadsEmpty : Uploads := fun _ => none

/-- The product list after a quantity-only stock update on `id`. -/
def setQuantidade (id : String) (q : Int) (l : List Produto) : List Produto :=
  l.map (fun r => if r.id == id then { r with quantidade := q } else r)

/-- The product list after `editar_produto` submitted only `nome` and
`categoria_id`: the omitted optional fields are overwritten with their
defaults and the image is the one carried over. -/
def overwriteDefaults (id nome cat : String) (img : Option String) (l : List Produto) :
    List Produto :=
  l.map (fun r => if r.id == id then ⟨r.id, nome, "", 0, 0, cat, "", img⟩ else r)

lemma any_of_find? {α : Type} {q : α → Bool} {l : List α} {a : α}
    (h : l.find? q = some a) : l.any q = true :=
  List.any_eq_true.mpr ⟨a, List.mem_of_find?_eq_some h, List.find?_some h⟩

lemma patchQ_apply (q : Int) (r : Produto) :
    ProdutoPatch.apply { quantidade := some q } r = { r with quantidade := q } := rfl

/-- A successful `Produto.create` preserves the quantity invariant: the
store rejects a negative quantity. -/
lemma create_quantOk {db db2 : DB} {d : ProdutoData}
    (h : Produto.create db d = some db2) (hdb : quantidadesOk db) :
    quantidadesOk db2 := by
  unfold Produto.create at h
  split at h
  · rename_i hc
    injection h with h
    subst h
    intro p hp
    rcases List.mem_append.mp hp with h1 | h2
    · exact hdb p h1
    · simp only [List.mem_singleton] at h2
      subst h2
      exact hc.2
  · exact Option.noConfusion h

/-- A successful `Produto.update` preserves the quantity invariant
provided the patched quantity (if any) is non-negative. -/
lemma update_quantOk {db db2 : DB} {id : String} {pat : ProdutoPatch}
    (h : Produto.update db id pat = some db2) (hdb : quantidadesOk db)
    (hq : ∀ q, pat.quantidade = some q → 0 ≤ q) : quantidadesOk db2 := by
  unfold Produto.update at h
  split at h
  · injection h with h
    subst h
    intro p hp
    rcases List.mem_map.mp hp with ⟨r, hr, hrp⟩
    by_cases hid : (r.id == id) = true
    · rw [if_pos hid] at hrp
      subst hrp
      cases hpq : pat.quantidade with
      | none =>
          have hsame : (pat.apply r).quantidade = r.quantidade := by
            simp [ProdutoPatch.apply, hpq]
          rw [hsame]
          exact hdb r hr
      | some q =>
          have hset : (pat.apply r).quantidade = q := by
            simp [ProdutoPatch.apply, hpq]
          rw [hset]
          exact hq q hpq
    · rw [if_neg hid] at hrp
      subst hrp
      exact hdb r hr
  · exact Option.noConfusion h

/-- A successful `Venda.create` only adds sales satisfying the sale
data-model invariant. -/
lemma venda_create_ok {db db2 : DB} {d : VendaData}
    (h : Venda.create db d = some db2) (hdb : ∀ v ∈ db.vendas, vendaOk v) :
    ∀ v ∈ db2.vendas, vendaOk v := by
  unfold Venda.create at h
  split at h
  · rename_i hc
    injection h with h
    subst h
    intro v hv
    rcases List.mem_append.mp hv with h1 | h2
    · exact hdb v h1
    · simp only [List.mem_singleton] at h2
      subst h2
      exact hc
  · exact Option.noConfusion h

/-- A positive stored quantity renders as the in-stock status string. -/
lemma status_pos {p : Produto} (h : 0 < p.quantidade) :
    (estoque_item p).status = "Em estoque" := by
  simp [estoque_item, h]

/-- A non-positive stored quantity renders as the out-of-stock status string. -/
lemma status_nonpos {p : Produto} (h : p.quantidade ≤ 0) :
    (estoque_item p).status = "Sem estoque" := by
  simp [estoque_item, Int.not_lt.mpr h]

/-- Claim C1, counterexample.  The claim says a negative value submitted
to the stock set-quantity operation always fails with a validation error
and leaves the quantity unchanged.  On the concrete store `exDB` (one
product with quantity 5), submitting quantity `-1` instead changes the
stored quantity to `-1` and reports success. -/
theorem c1_counterexample :
    (atualizar_estoque true "1" (formQ "-1") exDB).1.produtos.map Produto.quantidade = [-1] ∧
    exDB.produtos.map Produto.quantidade = [5] ∧
    (atualizar_estoque true "1" (formQ "-1") exDB).2 =
      Resp.redirect "estoque"
        [("Estoque atualizado com sucesso! Nova quantidade: -1", "success")] :=
  ⟨by decide, by decide, by decide⟩

/-- Claim C1, amended.  `atualizar_estoque` performs no sign validation:
whenever the product exists and the form value parses to an integer `q`
(negative values included), it sets the stored quantity to `q` and
reports success; the stored quantity is left unchanged exactly in the
failure paths — an unparseable form value or a missing product. -/
theorem c1_amended :
    (∀ (db : DB) (id : String) (form : Form) (q : Int) (p : Produto),
        pyIntField (form "quantidade") 0 = some q →
        Produto.get_by_id db id = some p →
        atualizar_estoque true id form db =
          ({ db with produtos := setQuantidade id q db.produtos },
           Resp.redirect "estoque"
             [("Estoque atualizado com sucesso! Nova quantidade: " ++ toString q,
               "success")])) ∧
    (∀ (db : DB) (id : String) (form : Form),
        pyIntField (form "quantidade") 0 = none →
        (atualizar_estoque true id form db).1 = db) ∧
    (∀ (db : DB) (id : String) (form : Form),
        Produto.get_by_id db id = none →
        (atualizar_estoque true id form db).1 = db) := by
  refine ⟨?_, ?_, ?_⟩
  · intro db id form q p hq hp
    unfold atualizar_estoque
    rw [hq, hp]
    simp only [Produto.update,
      any_of_find? (show db.produtos.find? (fun r => r.id == id) = some p from hp),
      if_true, setQuantidade, patchQ_apply]
  · intro db id form h
    simp [atualizar_estoque, h]
  · intro db id form h
    cases hq : pyIntField (form "quantidade") 0 with
    | none => simp [atualizar_estoque, hq]
    | some q => simp [atualizar_estoque, hq, h]

/-- Claim C1, witness for the amended theorem at a concrete store and a
concrete negative submission. -/
theorem c1_amended_witness :
    atualizar_estoque true "1" (formQ "-1") exDB =
      ({ exDB with produtos := setQuantidade "1" (-1) exDB.produtos },
       Resp.redirect "estoque"
         [("Estoque atualizado com sucesso! Nova quantidade: " ++ toString (-1 : Int),
           "success")]) :=
  c1_amended.1 exDB "1" (formQ "-1") (-1) exProduto (by decide) (by decide)

/-- Claim C2, counterexample.  The claim says no sequence of product
creation, product edit and stock update can make a stored quantity
negative.  Starting from `exDB0`, whose only product has quantity 0
(the invariant holds), a single stock update submitting `-1` produces a
store violating the invariant. -/
theorem c2_counterexample :
    quantidadesOkB exDB0 = true ∧
    quantidadesOkB (atualizar_estoque true "1" (formQ "-1") exDB0).1 = false :=
  ⟨by decide, by decide⟩

/-- Claim C2, amended.  Product creation preserves the quantity
invariant (the store-level create validation rejects a negative
quantity); the product edit and the stock update pass the parsed form
quantity through `Produto.update` with no validation, so they preserve
the invariant only when the submitted quantity is non-negative — a
negative submission produces observable negative stock, as the
counterexample shows. -/
theorem c2_amended :
    (∀ (form : Form) (img : Option String) (db : DB),
        quantidadesOk db → quantidadesOk (novo_produto true form img db).1) ∧
    (∀ (db : DB) (id : String) (form : Form) (q : Int),
        quantidadesOk db → pyIntField (form "quantidade") 0 = some q → 0 ≤ q →
        quantidadesOk (atualizar_estoque true id form db).1) ∧
    (∀ (db : DB) (id : String) (form : Form) (img : Option String) (q : Int),
        quantidadesOk db → pyIntField (form "quantidade") 0 = some q → 0 ≤ q →
        quantidadesOk (editar_produto true id form img db).1) := by
  refine ⟨?_, ?_, ?_⟩
  · intro form img db hdb
    unfold novo_produto
    repeat' split
    all_goals try exact hdb
    all_goals rename_i heq
    all_goals exact create_quantOk heq hdb
  · intro db id form q hdb hq h0
    unfold atualizar_estoque
    rw [hq]
    repeat' split
    all_goals try exact hdb
    rename_i hT xq quant hsome xp prod hget xdb db2 hupd
    refine update_quantOk hupd hdb ?_
    intro q2 hq2
    have hq2b : some quant = some q2 := hq2
    injection hq2b with hq2b
    injection hsome with hsome
    omega
  · intro db id form img q hdb hq h0
    unfold editar_produto
    repeat' split
    all_goals try exact hdb
    rename_i hT xp prod hget h1 h2 xf preco hpreco xq quant hparse xu db2 hupd
    refine update_quantOk hupd hdb ?_
    intro q2 hq2
    have hq2b : some quant = some q2 := hq2
    injection hq2b with hq2b
    rw [hq] at hparse
    injection hparse with hparse
    omega

/-- Claim C2, witness for the amended theorem: a non-negative stock
update on a store satisfying the invariant keeps it. -/
theorem c2_amended_witness :
    quantidadesOk (atualizar_estoque true "1" (formQ "5") exDB).1 :=
  c2_amended.2.1 exDB "1" (formQ "5") 5 (by decide) (by decide) (by decide)

/-- Claim C3, counterexample.  The claim says fields not present in a
submitted patch are left untouched.  Editing the product of `exDB`
(description `azul`, price 5, quantity 5, barcode `789`) with a form
that carries only `nome` and `categoria_id` overwrites the omitted
fields with defaults: the stored description becomes empty, price and
quantity become 0, the barcode becomes empty. -/
theorem c3_counterexample :
    exDB.produtos.map Produto.descricao = ["azul"] ∧
    (editar_produto true "1" (formNomeCat "Caneta" "c1") none exDB).1.produtos =
      [⟨"1", "Caneta", "", 0, 0, "c1", "", some "img.png"⟩] :=
  ⟨by decide, by decide⟩

/-- Claim C3, amended.  The store-level `Produto.update` does leave
unpatched fields untouched, and a client edit with a missing field
performs no update at all (the whole entity is untouched via failure);
but the product edit handler always submits the full field set, filling
the omitted optional fields with defaults (empty string, zero) — only
the stored image is carried over when no new image is uploaded — so an
omitted field of a product edit is overwritten, not left untouched. -/
theorem c3_amended :
    (∀ (pat : ProdutoPatch) (p : Produto),
        (pat.nome = none → (pat.apply p).nome = p.nome) ∧
        (pat.descricao = none → (pat.apply p).descricao = p.descricao) ∧
        (pat.preco = none → (pat.apply p).preco = p.preco) ∧
        (pat.quantidade = none → (pat.apply p).quantidade = p.quantidade) ∧
        (pat.categoria_id = none → (pat.apply p).categoria_id = p.categoria_id) ∧
        (pat.codigo_barras = none → (pat.apply p).codigo_barras = p.codigo_barras) ∧
        (pat.imagem = none → (pat.apply p).imagem = p.imagem)) ∧
    (∀ (db : DB) (id : String) (form : Form),
        form "nome" = none → (editar_cliente true id form db).1 = db) ∧
    (∀ (db : DB) (id : String) (p : Produto) (nome cat : String),
        Produto.get_by_id db id = some p →
        (nome == "") = false → (cat == "") = false →
        editar_produto true id (formNomeCat nome cat) none db =
          ({ db with produtos := overwriteDefaults id nome cat p.imagem db.produtos },
           Resp.redirect "produtos" [("Produto atualizado com sucesso!", "success")])) := by
  refine ⟨?_, ?_, ?_⟩
  · intro pat p
    refine ⟨?_, ?_, ?_, ?_, ?_, ?_, ?_⟩ <;>
      (intro h; simp [ProdutoPatch.apply, h])
  · intro db id form h
    unfold editar_cliente
    cases hc : Cliente.get_by_id db id with
    | none => rfl
    | some c =>
        rw [h]
        rfl
  · intro db id p nome cat hp hnome hcat
    unfold editar_produto
    rw [hp]
    have hb1 : isBlank (formNomeCat nome cat "nome") = false := by
      simpa [formNomeCat, isBlank] using hnome
    have hb2 : isBlank (formNomeCat nome cat "categoria_id") = false := by
      simpa [formNomeCat, isBlank] using hcat
    rw [hb1, hb2]
    have hf : pyFloatField (formNomeCat nome cat "preco") 0 = some 0 := rfl
    have hqz : pyIntField (formNomeCat nome cat "quantidade") 0 = some 0 := rfl
    rw [hf, hqz]
    simp only [Produto.update,
      any_of_find? (show db.produtos.find? (fun r => r.id == id) = some p from hp),
      if_true, overwriteDefaults]
    simp [ProdutoPatch.apply, keptImage, formNomeCat]

/-- Claim C3, witness for the amended theorem at the concrete store. -/
theorem c3_amended_witness :
    editar_produto true "1" (formNomeCat "Caneta" "c1") none exDB =
      ({ exDB with
          produtos := overwriteDefaults "1" "Caneta" "c1" exProduto.imagem exDB.produtos },
       Resp.redirect "produtos" [("Produto atualizado com sucesso!", "success")]) :=
  c3_amended.2.2 exDB "1" exProduto "Caneta" "c1" (by decide) (by decide) (by decide)

/-- Claim C4.  Authentication succeeds exactly for the hardcoded pair
`admin` / `admin123`, and every other pair — wrong username, wrong
password, or both — yields the same fixed failure message, which
therefore cannot reveal which field mismatched. -/
theorem c4_auth :
    (authenticate_user "admin" "admin123" = some ⟨"admin", "admin", "Administrador"⟩) ∧
    (login_post "admin" "admin123" = LoginResult.success ⟨"admin", "admin", "Administrador"⟩) ∧
    (∀ u p, ¬(u = "admin" ∧ p = "admin123") →
      login_post u p = LoginResult.failure "Usuário ou senha incorretos!") := by
  refine ⟨by decide, by decide, ?_⟩
  intro u p h
  unfold login_post authenticate_user
  rw [if_neg h]

/-- Claim C4, witness: a wrong password and a wrong username produce the
same generic failure. -/
theorem c4_auth_witness :
    login_post "admin" "wrong" = LoginResult.failure "Usuário ou senha incorretos!" ∧
    login_post "nope" "admin123" = LoginResult.failure "Usuário ou senha incorretos!" :=
  ⟨c4_auth.2.2 "admin" "wrong" (by decide), c4_auth.2.2 "nope" "admin123" (by decide)⟩

/-- Claim C5.  Deleting a category referenced by at least one existing
product hits the store's forbid-by-default conflict: the store delete
reports a conflict, the route flashes an error, and the state — hence
both the category and the referencing product — is unchanged. -/
theorem c5_delete_conflict :
    ∀ (db : DB) (id : String),
      db.produtos.any (fun p => p.categoria_id == id) = true →
      Categoria.delete db id = Except.error StoreErr.conflict ∧
      excluir_categoria true id db =
        (db, Resp.redirect "categorias" [("Erro ao excluir categoria!", "error")]) := by
  intro db id h
  have hdel : Categoria.delete db id = Except.error StoreErr.conflict := by
    unfold Categoria.delete
    rw [if_pos h]
  refine ⟨hdel, ?_⟩
  unfold excluir_categoria
  rw [hdel]
  rfl

/-- Claim C5, witness at a concrete store with a category referenced by
a product. -/
theorem c5_delete_conflict_witness :
    Categoria.delete exDBCat "c1" = Except.error StoreErr.conflict ∧
    excluir_categoria true "c1" exDBCat =
      (exDBCat, Resp.redirect "categorias" [("Erro ao excluir categoria!", "error")]) :=
  c5_delete_conflict exDBCat "c1" (by decide)

/-- Claim C6.  The inventory view's status is derived from the stored
quantity alone: a row reads `Em estoque` exactly when the quantity is
strictly positive and `Sem estoque` exactly when it is zero or less,
and the inventory screen renders exactly the product list mapped
through this conversion. -/
theorem c6_stock_status :
    ∀ (p : Produto) (db : DB),
      ((estoque_item p).status = "Em estoque" ↔ 0 < p.quantidade) ∧
      ((estoque_item p).status = "Sem estoque" ↔ p.quantidade ≤ 0) ∧
      (estoque true db).2 = Resp.estoquePage (db.produtos.map estoque_item) := by
  intro p db
  refine ⟨⟨?_, status_pos⟩, ⟨?_, status_nonpos⟩, rfl⟩
  · intro hs
    by_contra hneg
    rw [Int.not_lt] at hneg
    rw [status_nonpos hneg] at hs
    exact absurd hs (by decide)
  · intro hs
    by_contra hneg
    rw [Int.not_le] at hneg
    rw [status_pos hneg] at hs
    exact absurd hs (by decide)

/-- Claim C6, witness: the concrete product with quantity 5 reads as in
stock. -/
theorem c6_stock_status_witness :
    (estoque_item exProduto).status = "Em estoque" :=
  (c6_stock_status exProduto exDB).1.mpr (by decide)

/-- Claim C7.  Every CRUD screen and every mutating operation over
customers, categories, products, inventory quantity and sales carries
the login gate: called without an authenticated identity, each handler
returns the login redirect and leaves the store untouched. -/
theorem c7_login_gate :
    (∀ db, index false db = (db, Resp.redirect "login" [])) ∧
    (∀ db, clientes false db = (db, loginRedirect)) ∧
    (∀ (form : Form) db, novo_cliente false form db = (db, loginRedirect)) ∧
    (∀ id (form : Form) db, editar_cliente false id form db = (db, loginRedirect)) ∧
    (∀ id db, excluir_cliente false id db = (db, loginRedirect)) ∧
    (∀ db, categorias false db = (db, loginRedirect)) ∧
    (∀ (form : Form) db, nova_categoria false form db = (db, loginRedirect)) ∧
    (∀ id (form : Form) db, editar_categoria false id form db = (db, loginRedirect)) ∧
    (∀ id db, excluir_categoria false id db = (db, loginRedirect)) ∧
    (∀ db, produtos false db = (db, loginRedirect)) ∧
    (∀ (form : Form) (img : Option String) db,
      novo_produto false form img db = (db, loginRedirect)) ∧
    (∀ id (form : Form) (img : Option String) db,
      editar_produto false id form img db = (db, loginRedirect)) ∧
    (∀ id db, excluir_produto false id db = (db, loginRedirect)) ∧
    (∀ db, estoque false db = (db, loginRedirect)) ∧
    (∀ id (form : Form) db, atualizar_estoque false id form db = (db, loginRedirect)) ∧
    (∀ db, vendas false db = (db, loginRedirect)) ∧
    (∀ (form : Form) now db, nova_venda false form now db = (db, loginRedirect)) :=
  ⟨fun _ => rfl, fun _ => rfl, fun _ _ => rfl, fun _ _ _ => rfl, fun _ _ => rfl,
   fun _ => rfl, fun _ _ => rfl, fun _ _ _ => rfl, fun _ _ => rfl,
   fun _ => rfl, fun _ _ _ => rfl, fun _ _ _ _ => rfl, fun _ _ => rfl,
   fun _ => rfl, fun _ _ _ => rfl, fun _ => rfl, fun _ _ _ => rfl⟩

/-- Claim C8, counterexample.  The claim says every API-style endpoint
turns a failure into a 500 response whose JSON body has the shape
`erro ↦ string`.  The `/api/status` endpoint recovers its failures into
a 500 response whose body is keyed `status` / `error` / `timestamp`,
which is not of that shape. -/
theorem c8_counterexample :
    api_status "t" (some "boom") false =
      Resp.jsonErr 500 [("status", "error"), ("error", "boom"), ("timestamp", "t")] ∧
    erroBodyShapeB [("status", "error"), ("error", "boom"), ("timestamp", "t")] = false ∧
    erroBodyShapeB [("erro", "boom")] = true :=
  ⟨rfl, rfl, rfl⟩

/-- Claim C8, amended.  Every modelled API-style endpoint recovers an
internal failure at its boundary into a structured response and never
re-raises it: the sales report, the inventory report and the sync
status return 500 with a JSON body of shape `erro ↦ message`;
`/api/status` returns 500 with its own `status`/`error`/`timestamp`
body; the upload route turns a missing file into a plain-text 404. -/
theorem c8_amended :
    (∀ e, api_relatorio_vendas true (Except.error e) = Resp.jsonErr 500 [("erro", e)]) ∧
    (∀ e, api_relatorio_estoque true (Except.error e) = Resp.jsonErr 500 [("erro", e)]) ∧
    (∀ e, sync_status_route true (Except.error e) = Resp.jsonErr 500 [("erro", e)]) ∧
    (∀ now e sOk, api_status now (some e) sOk =
      Resp.jsonErr 500 [("status", "error"), ("error", e), ("timestamp", now)]) ∧
    (∀ a f (u : Uploads), u f = none →
      uploaded_file a f u = Resp.plain404 "Arquivo não encontrado") := by
  refine ⟨fun _ => rfl, fun _ => rfl, fun _ => rfl, fun _ _ _ => rfl, ?_⟩
  intro a f u h
  unfold uploaded_file
  rw [h]

/-- Claim C8, witness: a file missing from an empty upload folder is
served as a plain-text 404. -/
theorem c8_amended_witness :
    uploaded_file false "x.png" uploadsEmpty = Resp.plain404 "Arquivo não encontrado" :=
  c8_amended.2.2.2.2 false "x.png" uploadsEmpty rfl

/-- Claim C9.  Every sale created through `nova_venda` satisfies the
sale data-model invariant: starting from a store whose sales all have a
non-negative total and an enum status, the store after a sale-creation
request still only holds such sales (the handler always submits the
completed status `concluida`, and the store create rejects a negative
total). -/
theorem c9_sale_invariant :
    ∀ (form : Form) (now : String) (db : DB),
      (∀ v ∈ db.vendas, vendaOk v) →
      ∀ v ∈ (nova_venda true form now db).1.vendas, vendaOk v := by
  intro form now db hdb
  unfold nova_venda
  repeat' split
  all_goals try exact hdb
  rename_i heq
  exact venda_create_ok heq hdb

/-- Claim C9, witness: the sale created from a concrete request has a
non-negative total and an enum status. -/
theorem c9_sale_invariant_witness :
    vendaOk ⟨"0", "c", "2026-01-01", 10, "concluida"⟩ :=
  c9_sale_invariant (formVenda "c" "10") "2026-01-01" exDBEmpty (by decide)
    ⟨"0", "c", "2026-01-01", 10, "concluida"⟩ (by decide)

/-- Claim C10.  The upload file-serving route ignores the caller's
session entirely: two runs differing only in the session flag return the
same response for the same file name and stored files, and an
unauthenticated caller is served the stored file rather than being
gated. -/
theorem c10_uploads_no_session :
    (∀ (a b : Bool) (f : String) (u : Uploads), uploaded_file a f u = uploaded_file b f u) ∧
    (∀ (f : String) (u : Uploads) (c : String), u f = some c →
      uploaded_file false f u = Resp.fileOk c) := by
  refine ⟨fun _ _ _ _ => rfl, ?_⟩
  intro f u c h
  unfold uploaded_file
  rw [h]

/-- Claim C10, witness: the stored file is served to an unauthenticated
caller. -/
theorem c10_uploads_no_session_witness :
    uploaded_file false "a.png" uploadsOne = Resp.fileOk "conteudo" :=
  c10_uploads_no_session.2 "a.png" uploadsOne "conteudo" rfl

end App
